import Mathlib

/-!
Verification development for the Gemini multimodal artifact chat client.

The definitions below are a shallow embedding of the TypeScript source:

* `src/services/geminiService.ts` — the Gemini provider client
  (`generateResponse` result assembly, `generateTitleFromContent`,
  `applyOfflineAmharicCorrections`, `performOcr` and its preprocessing),
* `src/App.tsx` — `handleSendMessage`'s artifact-update rule,
* `src/utils/file.ts` — the image normalizer (`processAndEncode`,
  `fileToBase64`),
* the DeepSeek/OpenRouter client and orchestrator
  (`generateDeepSeekResponse`, `generateMixedResponse`).

Remote provider calls and browser APIs are modelled as explicit oracle
arguments (a call either returns a value or throws, i.e. `Except`); all
JavaScript string operations used by the code are re-implemented on
`List Char` so that every definition evaluates by kernel reduction.
-/

/-! ## JavaScript string primitives -/

/-- Character class trimmed by JavaScript `String.prototype.trim`:
WhiteSpace (tab, VT, FF, space, NBSP, BOM, Unicode space separators)
plus LineTerminator (LF, CR, LS, PS). -/
def isJsWhitespace (c : Char) : Bool :=
  c.toNat = 0x9 || c.toNat = 0xA || c.toNat = 0xB || c.toNat = 0xC ||
  c.toNat = 0xD || c.toNat = 0x20 || c.toNat = 0xA0 || c.toNat = 0x1680 ||
  (0x2000 ≤ c.toNat && c.toNat ≤ 0x200A) ||
  c.toNat = 0x2028 || c.toNat = 0x2029 || c.toNat = 0x202F ||
  c.toNat = 0x205F || c.toNat = 0x3000 || c.toNat = 0xFEFF

/-- JavaScript `s.trim()`: strip leading and trailing whitespace. -/
def jsTrim (s : String) : String :=
  String.mk (((s.toList.dropWhile isJsWhitespace).reverse.dropWhile
    isJsWhitespace).reverse)

/-- JavaScript `s.toLowerCase()` restricted to the ASCII range (the only
case mapping exercised by the source: intent keywords are ASCII and the
Ethiopic script has no case). -/
def jsToLower (s : String) : String :=
  String.mk (s.toList.map Char.toLower)

/-- Whether `hay` starts with `sub` (both as character lists). -/
def startsWith : List Char → List Char → Bool
  | [], _ => true
  | _ :: _, [] => false
  | a :: as, b :: bs => a == b && startsWith as bs

/-- Whether `sub` occurs contiguously inside `hay`. -/
def jsIncludesChars (sub : List Char) : List Char → Bool
  | [] => startsWith sub []
  | b :: bs => startsWith sub (b :: bs) || jsIncludesChars sub bs

/-- JavaScript `hay.includes(sub)`. -/
def jsIncludes (hay sub : String) : Bool :=
  jsIncludesChars sub.toList hay.toList

/-- JavaScript `s.split(' ')`: split on every single space, keeping empty
segments; the empty string yields one empty segment. -/
def splitSpaces : List Char → List (List Char)
  | [] => [[]]
  | c :: rest =>
    if c = ' ' then [] :: splitSpaces rest
    else
      match splitSpaces rest with
      | [] => [[c]]
      | w :: ws => (c :: w) :: ws

/-- Join a list of strings with single spaces (JavaScript `arr.join(' ')`). -/
def joinSpace : List String → String
  | [] => ""
  | [w] => w
  | w :: ws => w ++ " " ++ joinSpace ws

/-- JavaScript `arr.split(' ')` lifted to `String`. -/
def jsSplitSpace (s : String) : List String :=
  (splitSpaces s.toList).map String.mk

/-! ## Offline Amharic OCR corrections (`applyOfflineAmharicCorrections`,
`src/services/geminiService.ts` lines 338–356) -/

/-- One global single-character regex replacement `/a/g → b`. -/
def fixChar (a b c : Char) : Char := if c = a then b else c

/-- The vowel class of the fifth correction `/ቀ([ይዩየዮዪዒ])/g → ቅ$1`. -/
def qeVowels : List Char := ['ይ', 'ዩ', 'የ', 'ዮ', 'ዪ', 'ዒ']

/-- Global replacement of `/ቀ([ይዩየዮዪዒ])/g` by `ቅ$1`: scan left to right,
on a match emit the substitute and resume after the two matched
characters, otherwise advance one character. -/
def replaceQe : List Char → List Char
  | [] => []
  | [c] => [c]
  | c :: d :: rest =>
    if c = 'ቀ' ∧ d ∈ qeVowels then 'ቅ' :: d :: replaceQe rest
    else c :: replaceQe (d :: rest)

/-- The offline Amharic substitution table applied in source order:
ሠ→ሰ, ኣ→አ, ሃ→ሀ, ኧ→እ, then ቀ+vowel→ቅ+vowel. -/
def applyOfflineAmharicCorrections (text : String) : String :=
  let c1 := text.toList.map (fixChar 'ሠ' 'ሰ')
  let c2 := c1.map (fixChar 'ኣ' 'አ')
  let c3 := c2.map (fixChar 'ሃ' 'ሀ')
  let c4 := c3.map (fixChar 'ኧ' 'እ')
  String.mk (replaceQe c4)

/-- Membership in the Ethiopic Unicode block U+1200–U+137F. -/
def isEthiopic (c : Char) : Bool :=
  0x1200 ≤ c.toNat && c.toNat ≤ 0x137F

theorem mem_map_fixChar {x a b : Char} {l : List Char}
    (h : x ∈ l.map (fixChar a b)) : x ∈ l ∨ x = b := by
  rcases List.mem_map.mp h with ⟨c, hc, hfix⟩
  unfold fixChar at hfix
  by_cases hca : c = a
  · right; rw [if_pos hca] at hfix; exact hfix.symm
  · left; rw [if_neg hca] at hfix; exact hfix ▸ hc

theorem map_fixChar_ne {a b : Char} (hba : b ≠ a) {l : List Char} {x : Char}
    (h : x ∈ l.map (fixChar a b)) : x ≠ a := by
  rcases List.mem_map.mp h with ⟨c, _, hfix⟩
  unfold fixChar at hfix
  by_cases hca : c = a
  · rw [if_pos hca] at hfix; exact hfix ▸ hba
  · rw [if_neg hca] at hfix; exact hfix ▸ hca

theorem map_fixChar_of_not_mem {a b : Char} {l : List Char} (h : a ∉ l) :
    l.map (fixChar a b) = l := by
  induction l with
  | nil => rfl
  | cons c cs ih =>
    simp only [List.mem_cons, not_or] at h
    simp only [List.map_cons, ih h.2, fixChar, if_neg (Ne.symm h.1)]

theorem replaceQe_mem {c : Char} {l : List Char} (h : c ∈ replaceQe l) :
    c ∈ l ∨ c = 'ቅ' := by
  induction l using replaceQe.induct with
  | case1 => simp [replaceQe] at h
  | case2 a =>
    simp only [replaceQe] at h
    exact Or.inl h
  | case3 a d rest hcond ih =>
    rw [replaceQe, if_pos hcond] at h
    rw [List.mem_cons, List.mem_cons] at h
    rcases h with h | h | h
    · exact Or.inr h
    · exact Or.inl (by simp [h])
    · rcases ih h with h' | h'
      · exact Or.inl (by simp [h'])
      · exact Or.inr h'
  | case4 a d rest hcond ih =>
    rw [replaceQe, if_neg hcond] at h
    rw [List.mem_cons] at h
    rcases h with h | h
    · exact Or.inl (by simp [h])
    · rcases ih h with h' | h'
      · rw [List.mem_cons] at h'
        exact Or.inl (by rw [List.mem_cons, List.mem_cons]; tauto)
      · exact Or.inr h'

theorem replaceQe_of_not_mem {l : List Char} (h : 'ቀ' ∉ l) :
    replaceQe l = l := by
  induction l using replaceQe.induct with
  | case1 => rfl
  | case2 a => rfl
  | case3 a d rest hcond ih =>
    exact absurd (by simp [hcond.1]) h
  | case4 a d rest hcond ih =>
    rw [List.mem_cons, not_or] at h
    rw [replaceQe, if_neg hcond, ih h.2]

theorem replaceQe_cons_ne {c : Char} (hc : c ≠ 'ቀ') (l : List Char) :
    replaceQe (c :: l) = c :: replaceQe l := by
  cases l with
  | nil => rfl
  | cons d rest =>
    rw [replaceQe, if_neg (by intro hh; exact hc hh.1)]

/-- Whether the first character of a list belongs to the ቀ-vowel class. -/
def headQeVowel : List Char → Bool
  | [] => false
  | c :: _ => decide (c ∈ qeVowels)

theorem replaceQe_cons_qe {l : List Char} (hl : headQeVowel l = false) :
    replaceQe ('ቀ' :: l) = 'ቀ' :: replaceQe l := by
  cases l with
  | nil => rfl
  | cons d rest =>
    unfold headQeVowel at hl
    rw [replaceQe, if_neg (by intro hh; rw [decide_eq_false_iff_not] at hl; exact hl hh.2)]

theorem headQeVowel_replaceQe {d : Char} (hd : d ∉ qeVowels) (r : List Char) :
    headQeVowel (replaceQe (d :: r)) = false := by
  cases r with
  | nil =>
    unfold replaceQe headQeVowel
    exact decide_eq_false hd
  | cons e rest =>
    by_cases hcond : d = 'ቀ' ∧ e ∈ qeVowels
    · rw [replaceQe, if_pos hcond]
      rfl
    · rw [replaceQe, if_neg hcond]
      exact decide_eq_false hd

theorem replaceQe_idem (l : List Char) : replaceQe (replaceQe l) = replaceQe l := by
  induction l using replaceQe.induct with
  | case1 => rfl
  | case2 a => rfl
  | case3 a d rest hcond ih =>
    rw [replaceQe, if_pos hcond]
    have hd : d ≠ 'ቀ' := by
      intro hdq
      have := hcond.2
      rw [hdq] at this
      revert this
      decide
    rw [replaceQe_cons_ne (by decide), replaceQe_cons_ne hd, ih]
  | case4 a d rest hcond ih =>
    rw [replaceQe, if_neg hcond]
    by_cases ha : a = 'ቀ'
    · have hd : d ∉ qeVowels := by
        intro hdv
        exact hcond ⟨ha, hdv⟩
      rw [ha, replaceQe_cons_qe (headQeVowel_replaceQe hd rest), ih]
    · rw [replaceQe_cons_ne ha, ih]

theorem applyOfflineAmharicCorrections_idem (s : String) :
    applyOfflineAmharicCorrections (applyOfflineAmharicCorrections s) =
      applyOfflineAmharicCorrections s := by
  unfold applyOfflineAmharicCorrections
  set t := ((s.toList.map (fixChar 'ሠ' 'ሰ')).map (fixChar 'ኣ' 'አ')).map
      (fixChar 'ሃ' 'ሀ') |>.map (fixChar 'ኧ' 'እ') with ht
  have habs : ∀ x : Char, x ∈ t → x ≠ 'ሠ' ∧ x ≠ 'ኣ' ∧ x ≠ 'ሃ' ∧ x ≠ 'ኧ' := by
    intro x hx
    rw [ht] at hx
    have h4 := mem_map_fixChar hx
    refine ⟨?_, ?_, ?_, ?_⟩
    · rcases h4 with h | h
      · rcases mem_map_fixChar h with h' | h'
        · rcases mem_map_fixChar h' with h'' | h''
          · exact map_fixChar_ne (by decide) h''
          · rw [h'']; decide
        · rw [h']; decide
      · rw [h]; decide
    · rcases h4 with h | h
      · rcases mem_map_fixChar h with h' | h'
        · exact map_fixChar_ne (by decide) h'
        · rw [h']; decide
      · rw [h]; decide
    · rcases h4 with h | h
      · exact map_fixChar_ne (by decide) h
      · rw [h]; decide
    · exact map_fixChar_ne (by decide) hx
  have hq : ∀ x : Char, x ∈ replaceQe t → x ≠ 'ሠ' ∧ x ≠ 'ኣ' ∧ x ≠ 'ሃ' ∧ x ≠ 'ኧ' := by
    intro x hx
    rcases replaceQe_mem hx with h | h
    · exact habs x h
    · rw [h]; refine ⟨by decide, by decide, by decide, by decide⟩
  have e1 : (replaceQe t).map (fixChar 'ሠ' 'ሰ') = replaceQe t :=
    map_fixChar_of_not_mem (fun hmem => (hq _ hmem).1 rfl)
  have e2 : (replaceQe t).map (fixChar 'ኣ' 'አ') = replaceQe t :=
    map_fixChar_of_not_mem (fun hmem => (hq _ hmem).2.1 rfl)
  have e3 : (replaceQe t).map (fixChar 'ሃ' 'ሀ') = replaceQe t :=
    map_fixChar_of_not_mem (fun hmem => (hq _ hmem).2.2.1 rfl)
  have e4 : (replaceQe t).map (fixChar 'ኧ' 'እ') = replaceQe t :=
    map_fixChar_of_not_mem (fun hmem => (hq _ hmem).2.2.2 rfl)
  show String.mk (replaceQe ((String.mk (replaceQe t)).toList.map (fixChar 'ሠ' 'ሰ')
      |>.map (fixChar 'ኣ' 'አ') |>.map (fixChar 'ሃ' 'ሀ') |>.map (fixChar 'ኧ' 'እ'))) =
      String.mk (replaceQe t)
  have htl : (String.mk (replaceQe t)).toList = replaceQe t := rfl
  rw [htl, e1, e2, e3, e4, replaceQe_idem]

theorem applyOfflineAmharicCorrections_of_no_ethiopic {s : String}
    (h : ∀ c ∈ s.toList, isEthiopic c = false) :
    applyOfflineAmharicCorrections s = s := by
  have hnm : ∀ x : Char, isEthiopic x = true → x ∉ s.toList := by
    intro x hx hmem
    rw [h x hmem] at hx
    exact Bool.false_ne_true hx
  show String.mk (replaceQe ((((s.toList.map (fixChar 'ሠ' 'ሰ')).map
      (fixChar 'ኣ' 'አ')).map (fixChar 'ሃ' 'ሀ')).map (fixChar 'ኧ' 'እ'))) = s
  rw [map_fixChar_of_not_mem (hnm 'ሠ' (by decide)),
      map_fixChar_of_not_mem (hnm 'ኣ' (by decide)),
      map_fixChar_of_not_mem (hnm 'ሃ' (by decide)),
      map_fixChar_of_not_mem (hnm 'ኧ' (by decide)),
      replaceQe_of_not_mem (hnm 'ቀ' (by decide))]
  rfl

/-! ## Data model -/

/-- An encoded image blob as passed between components. -/
structure ImageRec where
  mimeType : String
  data : String
deriving DecidableEq, Repr

/-- A chat-facing response plus artifact content (`GenerationResult`). -/
structure GenResult where
  chatResponse : String
  artifactContent : String
deriving DecidableEq, Repr

/-- One prior chat turn as handed to the reasoning client. -/
structure ChatMsg where
  role : String
  text : String
deriving DecidableEq, Repr

/-! ## Gemini client: `generateResponse` result assembly
(`src/services/geminiService.ts` lines 91–96) -/

/-- The JSON object parsed from the structured Gemini reply; each field may
be absent. -/
structure ParsedGenResponse where
  chatResponse : Option String
  artifactContent : Option String
deriving DecidableEq, Repr

/-- Tail of `generateResponse`: substitute defaults for absent fields, in
particular the previous artifact for a missing `artifactContent`. -/
def generateResponseFromParsed (parsed : ParsedGenResponse)
    (previousArtifact : String) : GenResult :=
  { chatResponse := parsed.chatResponse.getD
      "I\x27m not sure how to respond to that, but here\x27s the artifact."
    artifactContent := parsed.artifactContent.getD previousArtifact }

/-- Artifact-update rule of `handleSendMessage` (`src/App.tsx` line 194):
keep the returned artifact only when its trimmed form is non-empty,
otherwise keep the conversation's existing artifact. -/
def storedArtifactContent (respArtifact convArtifact : String) : String :=
  if jsTrim respArtifact ≠ "" then respArtifact else convArtifact

/-! ## Gemini client: `generateTitleFromContent`
(`src/services/geminiService.ts` lines 103–149) -/

/-- The catch-branch fallback of `generateTitleFromContent`: first five
space-separated words plus an ellipsis when there are more than five
words, otherwise the prompt itself. -/
def titleFallback (prompt : String) : String :=
  let words := jsSplitSpace prompt
  if words.length > 5 then joinSpace (words.take 5) ++ "..." else prompt

/-- Modelled from the spec: the title fallback as the spec words it — the
first five words of the prompt text joined by spaces and followed by an
ellipsis, for every prompt (for comparison against `titleFallback`). -/
def specClaimedTitleFallback (prompt : String) : String :=
  joinSpace ((jsSplitSpace prompt).take 5) ++ "..."

/-- Full `generateTitleFromContent` over a title-provider oracle that
either throws or returns the reply text (empty string when the provider
returned no text). -/
def generateTitleFromContent (titleOracle : Except String String)
    (prompt : String) : String :=
  match titleOracle with
  | .error _ => titleFallback prompt
  | .ok titleText =>
    if titleText = "" then String.mk (prompt.toList.take 30)
    else
      let cleaned := String.mk ((jsTrim titleText).toList.filter
        (fun c => !(c = '"')))
      let title := if 50 < cleaned.toList.length
        then String.mk (cleaned.toList.take 47) ++ "..." else cleaned
      if title = "" then String.mk (prompt.toList.take 30) else title

/-! ## Image normalizer (`src/utils/file.ts`) -/

/-- The encoded output of the general-mode normalizer, together with the
dimensions of the raster it encodes and whether the input file was passed
through unmodified. -/
structure EncodedImage where
  mimeType : String
  width : ℤ
  height : ℤ
  original : Bool
deriving DecidableEq, Repr

/-- Resize rule of `processAndEncode`: when either dimension exceeds 1024,
scale the longest edge to 1024 and round the other proportionally. -/
def resizeDims (w h : ℕ) : ℤ × ℤ :=
  if w > 1024 ∨ h > 1024 then
    if w > h then (1024, round (((h : ℚ) * 1024) / (w : ℚ)))
    else (round (((w : ℚ) * 1024) / (h : ℚ)), 1024)
  else ((w : ℤ), (h : ℤ))

/-- Model of `processAndEncode`: resize (when the 2D context is available — on a
context failure the source keeps the original canvas) and encode as lossy
JPEG. -/
def processAndEncode (ctxOk : Bool) (w h : ℕ) : EncodedImage :=
  if w > 1024 ∨ h > 1024 then
    if ctxOk then
      ⟨"image/jpeg", (resizeDims w h).1, (resizeDims w h).2, false⟩
    else ⟨"image/jpeg", (w : ℤ), (h : ℤ), false⟩
  else ⟨"image/jpeg", (w : ℤ), (h : ℤ), false⟩

/-- Model of `fileToBase64`: TIFF inputs are decoded and always re-encoded; a
non-TIFF input that is already a JPEG with both dimensions at most
1024 px is passed through unmodified; everything else goes through
`processAndEncode`. -/
def fileToBase64 (ctxOk : Bool) (isTiff : Bool) (fileType : String)
    (w h : ℕ) : EncodedImage :=
  if isTiff then processAndEncode ctxOk w h
  else if w ≤ 1024 ∧ h ≤ 1024 ∧ fileType = "image/jpeg" then
    ⟨fileType, (w : ℤ), (h : ℤ), true⟩
  else processAndEncode ctxOk w h

/-- Scale factor of `enhanceImageForOcr` (OCR-directed normalization):
`Math.min(2048 / width, 2048 / height, 2)`. -/
def ocrScale (w h : ℕ) : ℚ :=
  min (min (2048 / (w : ℚ)) (2048 / (h : ℚ))) 2

/-- Output dimensions of `enhanceImageForOcr`:
`Math.round(width * scale)` by `Math.round(height * scale)`. -/
def enhanceImageForOcrDims (w h : ℕ) : ℤ × ℤ :=
  (round ((w : ℚ) * ocrScale w h), round ((h : ℚ) * ocrScale w h))

/-! ## OCR pipeline (`performOcr`, `src/services/geminiService.ts`
lines 358–541) -/

/-- The extraction provider's reply: output text (empty string when the
provider returned none) and its stated finish reason, if any. -/
structure OcrResponse where
  text : String
  finishReason : Option String
deriving DecidableEq, Repr

/-- Error-message normalization of `handleApiError`: network-looking
messages get a generic transport message, everything else is wrapped with
the operation name. -/
def handleApiErrorMsg (msg operation : String) : String :=
  if jsIncludes (jsToLower msg) "xhr error" || jsIncludes (jsToLower msg) "rpc failed"
      || jsIncludes (jsToLower msg) "500" then
    "The " ++ operation ++
      " failed due to a network issue or an overly large request. Please try again, perhaps with fewer or smaller images."
  else "The " ++ operation ++ " failed: " ++ msg

/-- Per-image preprocessing of `performOcr` (lines 413–430): run the
OCR-directed normalizer on every non-GIF image, re-tagging a success as
PNG and falling back to the original image when it throws; GIF images are
used as-is. -/
def preprocessStep (enhance : ImageRec → Except String String)
    (image : ImageRec) : ImageRec :=
  if image.mimeType ≠ "image/gif" then
    match enhance image with
    | .ok okData => ⟨"image/png", okData⟩
    | .error _ => image
  else image

/-- Modelled from the spec: the preprocessing step as the claim words it —
the OCR-directed normalizer is run over every input image independently,
with a per-image failure degrading to the original encoding (for
comparison against `preprocessStep`, which exempts GIF inputs). -/
def specClaimedPreprocessStep (enhance : ImageRec → Except String String)
    (image : ImageRec) : ImageRec :=
  match enhance image with
  | .ok okData => ⟨"image/png", okData⟩
  | .error _ => image

/-- The Organize stage (`organizeExtractedContent`): a provider call whose
failure, or empty reply, degrades to the raw text. -/
def organizeExtractedContent (organizeOracle : Except String String)
    (rawText : String) : String :=
  match organizeOracle with
  | .error _ => rawText
  | .ok t => if jsTrim t = "" then rawText else jsTrim t

/-- Fixed result string for an empty extraction with a normal stop. -/
def ocrNoTextMsg : String :=
  "No text could be extracted from the provided image(s). They may be empty or unclear."

/-- Fixed result string for a reply that literally says no text found. -/
def ocrNoTextFoundMsg : String :=
  "No text could be extracted from the provided image(s)."

/-- Message thrown on a safety-blocked extraction. -/
def ocrSafetyMsg : String :=
  "The OCR request was blocked due to safety settings. Please check the input images."

/-- Message thrown on an abnormal non-safety stop reason. -/
def ocrIncompleteMsg (reason : String) : String :=
  "OCR failed. The model stopped for reason: " ++ reason ++ "."

/-- Whether a string contains a character of the Ethiopic block
(`/[ሀ-፿]/.test`). -/
def hasAmharicText (s : String) : Bool :=
  s.toList.any isEthiopic

/-- The try-block of `performOcr`: preprocess every image, submit the
batch to the extraction oracle, classify an empty reply by finish reason,
then organize and (when the raw trimmed text contains Ethiopic
characters) apply the offline corrections. -/
def performOcrTry (enhance : ImageRec → Except String String)
    (ocrOracle : List ImageRec → Except String OcrResponse)
    (organizeOracle : Except String String)
    (images : List ImageRec) : Except String String :=
  let processedImages := images.map (preprocessStep enhance)
  match ocrOracle processedImages with
  | .error e => .error e
  | .ok resp =>
    if resp.text = "" then
      match resp.finishReason with
      | some r =>
        if r = "SAFETY" then .error ocrSafetyMsg
        else if r ≠ "" ∧ r ≠ "STOP" then .error (ocrIncompleteMsg r)
        else .ok ocrNoTextMsg
      | none => .ok ocrNoTextMsg
    else if jsToLower (jsTrim resp.text) = "no text found." then
      .ok ocrNoTextFoundMsg
    else
      let trimmedText := jsTrim resp.text
      let organizedText := organizeExtractedContent organizeOracle trimmedText
      if hasAmharicText trimmedText then
        .ok (applyOfflineAmharicCorrections organizedText)
      else .ok organizedText

/-- Model of `performOcr`: the try-block with every thrown error wrapped by
`handleApiError(error, "OCR Operation")`. -/
def performOcr (enhance : ImageRec → Except String String)
    (ocrOracle : List ImageRec → Except String OcrResponse)
    (organizeOracle : Except String String)
    (images : List ImageRec) : Except String String :=
  match performOcrTry enhance ocrOracle organizeOracle images with
  | .error m => .error (handleApiErrorMsg m "OCR Operation")
  | .ok r => .ok r

/-! ## Reasoning client (`generateDeepSeekResponse`, `src/unnamed/part_004`
lines 23–198) -/

/-- Outcome of one `fetch` to a reasoning provider: the promise rejects,
or an HTTP response arrives with an `ok` flag, a status code and the
parsed `choices` array (each entry its `message.content`). -/
inductive FetchOutcome where
  | thrown (msg : String)
  | resp (ok : Bool) (status : Nat) (choices : List String)
deriving DecidableEq, Repr

/-- One attempted reasoning provider, in attempt order. -/
inductive ReasonAttempt where
  | deepseekTry
  | openRouterTry
deriving DecidableEq, Repr

/-- Whether a fetch outcome counts as failed: the promise rejected or the
response was non-ok. -/
def fetchFailed : FetchOutcome → Bool
  | .thrown _ => true
  | .resp ok _ _ => !ok

/-- Parsing of a successful reply: an empty `choices` array throws,
otherwise the first choice becomes the chat text and the artifact content
is the empty string. -/
def parseChoices (choices : List String) : Except String GenResult :=
  match choices with
  | [] => .error "No response from DeepSeek API"
  | c :: _ => .ok ⟨c, ""⟩

/-- Wrap of the outer catch: every thrown error resurfaces as a
DeepSeek-chat failure. -/
def wrapDeepSeekError (r : Except String GenResult) : Except String GenResult :=
  match r with
  | .error e => .error ("DeepSeek chat failed: " ++ e)
  | .ok v => .ok v

/-- The provider-fallback core of `generateDeepSeekResponse` (lines
121–198): try DeepSeek when its key is configured, fall back to
OpenRouter when DeepSeek threw or replied non-ok, and fail when both are
unavailable; the returned trace lists the providers attempted in order. -/
def generateDeepSeekResponse (hasDeepSeekKey hasOpenRouterKey : Bool)
    (deepseekFetch openRouterFetch : FetchOutcome) :
    Except String GenResult × List ReasonAttempt :=
  let t1 : List ReasonAttempt :=
    if hasDeepSeekKey then [.deepseekTry] else []
  let dsResp : Option (Bool × Nat × List String) :=
    if hasDeepSeekKey then
      match deepseekFetch with
      | .thrown _ => none
      | .resp ok st ch => some (ok, st, ch)
    else none
  let core : Except String GenResult × List ReasonAttempt :=
    match dsResp with
    | some (true, _, ch) => (parseChoices ch, t1)
    | _ =>
      if hasOpenRouterKey = false then
        (.error "Both DeepSeek and OpenRouter unavailable", t1)
      else
        match openRouterFetch with
        | .thrown m => (.error m, t1 ++ [.openRouterTry])
        | .resp ok st ch =>
          if ok then (parseChoices ch, t1 ++ [.openRouterTry])
          else (.error ("DeepSeek API error: " ++ toString st),
                t1 ++ [.openRouterTry])
  (wrapDeepSeekError core.1, core.2)

/-! ## Orchestrator (`generateMixedResponse`, `src/unnamed/part_004`
lines 200–253) -/

/-- A call issued to an upstream provider client, with its arguments. -/
inductive ProviderCall where
  | deepseek (prompt systemInstruction : String)
  | gemini (prompt previousArtifact model systemInstruction : String)
      (images : Option (List ImageRec))
deriving DecidableEq, Repr

/-- Whether a provider call went to the reasoning client. -/
def isDeepSeekCall : ProviderCall → Bool
  | .deepseek _ _ => true
  | .gemini _ _ _ _ _ => false

/-- Keyword heuristic deciding whether the user wants the artifact panel
updated: the lowercased prompt contains one of the fixed intent
keywords. -/
def needsArtifact (prompt : String) : Bool :=
  jsIncludes (jsToLower prompt) "create" ||
  jsIncludes (jsToLower prompt) "generate" ||
  jsIncludes (jsToLower prompt) "write" ||
  jsIncludes (jsToLower prompt) "ይፍጠሩ" ||
  jsIncludes (jsToLower prompt) "ይጻፉ" ||
  jsIncludes (jsToLower prompt) "code" ||
  jsIncludes (jsToLower prompt) "component"

/-- Oracle type for the reasoning client: prompt, conversation history,
extracted content and system instruction. -/
def DeepSeekOracle : Type :=
  String → List ChatMsg → Option String → String → Except String GenResult

/-- Oracle type for the multimodal client's `generate`: prompt, previous
artifact, model, system instruction and optional images. -/
def GeminiOracle : Type :=
  String → String → String → String → Option (List ImageRec) →
    Except String GenResult

/-- Model of `generateMixedResponse`: image-bearing requests go exclusively to the
multimodal client; text-only requests go to the reasoning client, with an
additional multimodal artifact call merged in when the prompt matches the
intent keywords (degrading to the reasoning-only result when that
secondary call throws). The second component records every provider call
issued, in order, with its arguments. -/
def generateMixedResponse (deepseekGen : DeepSeekOracle)
    (geminiGen : GeminiOracle)
    (prompt previousArtifact model systemInstruction : String)
    (conversationHistory : List ChatMsg) (extractedContent : Option String)
    (images : Option (List ImageRec)) :
    Except String GenResult × List ProviderCall :=
  if (images.getD []).isEmpty then
    match deepseekGen prompt conversationHistory extractedContent
        systemInstruction with
    | .error e => (.error e, [.deepseek prompt systemInstruction])
    | .ok deepSeekResponse =>
      if needsArtifact prompt then
        match geminiGen prompt previousArtifact "gemini-1.5-flash-latest"
            systemInstruction images with
        | .ok geminiResult =>
          (.ok ⟨deepSeekResponse.chatResponse, geminiResult.artifactContent⟩,
           [.deepseek prompt systemInstruction,
            .gemini prompt previousArtifact "gemini-1.5-flash-latest"
              systemInstruction images])
        | .error _ =>
          (.ok deepSeekResponse,
           [.deepseek prompt systemInstruction,
            .gemini prompt previousArtifact "gemini-1.5-flash-latest"
              systemInstruction images])
      else (.ok deepSeekResponse, [.deepseek prompt systemInstruction])
  else
    (geminiGen prompt previousArtifact "gemini-1.5-flash-latest"
      systemInstruction images,
     [.gemini prompt previousArtifact "gemini-1.5-flash-latest"
       systemInstruction images])

/-! ## Claim theorems -/

/-- C1: Artifact preservation — `generateResponse` substitutes the
previous artifact when the parsed `artifactContent` field is missing; the
`handleSendMessage` caller keeps the conversation's existing artifact
whenever the returned artifact content is empty or whitespace-only; and
in combination, a reply whose artifact field is empty or missing leaves
the artifact finally stored for the conversation equal to the request's
previous artifact content exactly. -/
theorem c1_artifact_preservation (parsed : ParsedGenResponse)
    (prev a conv : String)
    (hmiss : parsed.artifactContent = none ∨
      ∃ s, parsed.artifactContent = some s ∧ jsTrim s = "") :
    storedArtifactContent
        (generateResponseFromParsed parsed prev).artifactContent prev = prev ∧
    (∀ c, (generateResponseFromParsed ⟨c, none⟩ prev).artifactContent = prev) ∧
    (jsTrim a = "" → storedArtifactContent a conv = conv) := by
  refine ⟨?_, fun c => rfl, fun hta => by simp [storedArtifactContent, hta]⟩
  rcases hmiss with hm | ⟨s, hs, hts⟩
  · simp only [generateResponseFromParsed, hm, Option.getD_none,
      storedArtifactContent]
    split <;> rfl
  · simp [generateResponseFromParsed, hs, storedArtifactContent, hts]

/-- Witness for C1: a parsed reply with no artifact field preserves the
concrete previous artifact. -/
theorem c1_artifact_preservation_witness :
    (⟨some "hi", none⟩ : ParsedGenResponse).artifactContent = none ∧
    storedArtifactContent
      (generateResponseFromParsed ⟨some "hi", none⟩ "PREV").artifactContent
      "PREV" = "PREV" :=
  ⟨rfl,
   (c1_artifact_preservation ⟨some "hi", none⟩ "PREV" " " "CONV"
     (Or.inl rfl)).1⟩

/-- C2: Routing exclusivity — a request carrying at least one image makes
`generateMixedResponse` return exactly the multimodal client's output on
the same prompt, previous artifact, system instruction and images, and
the trace of provider calls contains no reasoning-provider call. -/
theorem c2_routing_exclusivity (deepseekGen : DeepSeekOracle)
    (geminiGen : GeminiOracle)
    (prompt previousArtifact model systemInstruction : String)
    (conversationHistory : List ChatMsg) (extractedContent : Option String)
    (imgs : List ImageRec) (h : imgs ≠ []) :
    generateMixedResponse deepseekGen geminiGen prompt previousArtifact
        model systemInstruction conversationHistory extractedContent
        (some imgs) =
      (geminiGen prompt previousArtifact "gemini-1.5-flash-latest"
         systemInstruction (some imgs),
       [.gemini prompt previousArtifact "gemini-1.5-flash-latest"
         systemInstruction (some imgs)]) ∧
    ∀ call ∈ (generateMixedResponse deepseekGen geminiGen prompt
        previousArtifact model systemInstruction conversationHistory
        extractedContent (some imgs)).2, isDeepSeekCall call = false := by
  have hne : ((some imgs).getD ([] : List ImageRec)).isEmpty = false := by
    cases imgs with
    | nil => exact absurd rfl h
    | cons x l => rfl
  have hmain : generateMixedResponse deepseekGen geminiGen prompt
      previousArtifact model systemInstruction conversationHistory
      extractedContent (some imgs) =
      (geminiGen prompt previousArtifact "gemini-1.5-flash-latest"
         systemInstruction (some imgs),
       [.gemini prompt previousArtifact "gemini-1.5-flash-latest"
         systemInstruction (some imgs)]) := by
    unfold generateMixedResponse
    rw [hne]
    rfl
  refine ⟨hmain, ?_⟩
  rw [hmain]
  intro call hcall
  rw [List.mem_singleton] at hcall
  rw [hcall]
  rfl

/-- Witness for C2: a one-image request routed to a concrete multimodal
oracle, with no reasoning call in the trace. -/
theorem c2_routing_exclusivity_witness :
    generateMixedResponse
        (fun _ _ _ _ => .ok ⟨"ds", ""⟩)
        (fun p _ _ _ _ => .ok ⟨"seen: " ++ p, "art"⟩)
        "describe" "prev" "gemini-2.5-flash" "sys" [] none
        (some [⟨"image/png", "AAAA"⟩]) =
      ((.ok ⟨"seen: describe", "art"⟩ : Except String GenResult),
       [.gemini "describe" "prev" "gemini-1.5-flash-latest" "sys"
         (some [⟨"image/png", "AAAA"⟩])]) :=
  (c2_routing_exclusivity (fun _ _ _ _ => .ok ⟨"ds", ""⟩)
    (fun p _ _ _ _ => .ok ⟨"seen: " ++ p, "art"⟩)
    "describe" "prev" "gemini-2.5-flash" "sys" [] none
    [⟨"image/png", "AAAA"⟩] (by simp)).1

/-- C4: Artifact-need detection and merge — for a text-only request whose
prompt matches the intent keywords, after a successful reasoning reply a
second call goes to the multimodal client's `generate` with the same
prompt and previous artifact; on its success the merged result pairs the
reasoning chat text with the multimodal artifact content, and on its
failure the result degrades to the reasoning-only result without failing
the turn. -/
theorem c4_artifact_merge (deepseekGen : DeepSeekOracle)
    (geminiGen : GeminiOracle)
    (prompt previousArtifact model systemInstruction : String)
    (conversationHistory : List ChatMsg) (extractedContent : Option String)
    (images : Option (List ImageRec)) (deepSeekResponse : GenResult)
    (himg : (images.getD []).isEmpty = true)
    (hneed : needsArtifact prompt = true)
    (hds : deepseekGen prompt conversationHistory extractedContent
      systemInstruction = .ok deepSeekResponse) :
    (∀ geminiResult,
      geminiGen prompt previousArtifact "gemini-1.5-flash-latest"
          systemInstruction images = .ok geminiResult →
      generateMixedResponse deepseekGen geminiGen prompt previousArtifact
          model systemInstruction conversationHistory extractedContent
          images =
        (.ok ⟨deepSeekResponse.chatResponse, geminiResult.artifactContent⟩,
         [.deepseek prompt systemInstruction,
          .gemini prompt previousArtifact "gemini-1.5-flash-latest"
            systemInstruction images])) ∧
    (∀ e,
      geminiGen prompt previousArtifact "gemini-1.5-flash-latest"
          systemInstruction images = .error e →
      generateMixedResponse deepseekGen geminiGen prompt previousArtifact
          model systemInstruction conversationHistory extractedContent
          images =
        (.ok deepSeekResponse,
         [.deepseek prompt systemInstruction,
          .gemini prompt previousArtifact "gemini-1.5-flash-latest"
            systemInstruction images])) := by
  constructor
  · intro geminiResult hg
    unfold generateMixedResponse
    rw [himg]
    simp only [if_true]
    rw [hds]
    rw [hneed]
    simp only [if_true]
    rw [hg]
  · intro e hg
    unfold generateMixedResponse
    rw [himg]
    simp only [if_true]
    rw [hds]
    rw [hneed]
    simp only [if_true]
    rw [hg]

/-- Witness for C4: a concrete text-only prompt containing the keyword
"create", a successful reasoning reply and a successful multimodal
artifact call, merged as claimed. -/
theorem c4_artifact_merge_witness :
    needsArtifact "create a login form" = true ∧
    generateMixedResponse
        (fun _ _ _ _ => .ok ⟨"Here is a login form.", ""⟩)
        (fun _ _ _ _ _ => .ok ⟨"chat", "<form>...</form>"⟩)
        "create a login form" "<!-- empty -->" "m" "sys" [] none none =
      ((.ok ⟨"Here is a login form.", "<form>...</form>"⟩ :
          Except String GenResult),
       [.deepseek "create a login form" "sys",
        .gemini "create a login form" "<!-- empty -->"
          "gemini-1.5-flash-latest" "sys" none]) :=
  ⟨by decide,
   (c4_artifact_merge (fun _ _ _ _ => .ok ⟨"Here is a login form.", ""⟩)
      (fun _ _ _ _ _ => .ok ⟨"chat", "<form>...</form>"⟩)
      "create a login form" "<!-- empty -->" "m" "sys" [] none none
      ⟨"Here is a login form.", ""⟩ rfl (by decide) rfl).1
     ⟨"chat", "<form>...</form>"⟩ rfl⟩

/-- C5 counterexample: on a provider failure with the one-word prompt
"hello", `generateTitleFromContent` returns the prompt unchanged, not the
first five words followed by an ellipsis as the claim states. -/
theorem c5_title_fallback_counterexample :
    generateTitleFromContent (Except.error "provider down") "hello" =
      "hello" ∧
    specClaimedTitleFallback "hello" = "hello..." ∧
    generateTitleFromContent (Except.error "provider down") "hello" ≠
      specClaimedTitleFallback "hello" := by
  refine ⟨rfl, rfl, ?_⟩
  decide

/-- C5 (amended): when the title-provider call fails,
`generateTitleFromContent` returns the first five space-separated words
of the prompt joined by spaces and followed by an ellipsis whenever the
prompt has more than five such words, and otherwise returns the prompt
unchanged. -/
theorem c5_title_fallback (e prompt : String) :
    generateTitleFromContent (Except.error e) prompt =
      if 5 < (jsSplitSpace prompt).length
      then specClaimedTitleFallback prompt
      else prompt := rfl

/-- C10: the offline Amharic substitution table is idempotent — applying
`applyOfflineAmharicCorrections` twice yields the same result as applying
it once, for every input string. -/
theorem c10_offline_corrections_idempotent (s : String) :
    applyOfflineAmharicCorrections (applyOfflineAmharicCorrections s) =
      applyOfflineAmharicCorrections s :=
  applyOfflineAmharicCorrections_idem s

/-- C3: Fallback ordering and exhaustion — with both reasoning providers
configured, DeepSeek is attempted exactly once; OpenRouter is attempted
if and only if the DeepSeek fetch threw or returned a non-ok status; when
DeepSeek throws and OpenRouter replies ok, the request resolves using
OpenRouter's output with DeepSeek attempted once before it; and when both
providers fail the turn fails with an error. -/
theorem c3_fallback_ordering (deepseekFetch openRouterFetch : FetchOutcome) :
    ((generateDeepSeekResponse true true deepseekFetch
        openRouterFetch).2.count .deepseekTry = 1) ∧
    (ReasonAttempt.openRouterTry ∈ (generateDeepSeekResponse true true
        deepseekFetch openRouterFetch).2 ↔ fetchFailed deepseekFetch = true) ∧
    (∀ m st c rest, deepseekFetch = .thrown m →
      openRouterFetch = .resp true st (c :: rest) →
      generateDeepSeekResponse true true deepseekFetch openRouterFetch =
        (.ok ⟨c, ""⟩, [.deepseekTry, .openRouterTry])) ∧
    (fetchFailed deepseekFetch = true → fetchFailed openRouterFetch = true →
      ∃ e, (generateDeepSeekResponse true true deepseekFetch
        openRouterFetch).1 = .error e) := by
  refine ⟨?_, ?_, ?_, ?_⟩
  · cases deepseekFetch with
    | thrown m =>
      cases openRouterFetch with
      | thrown m2 => rfl
      | resp ok st ch => cases ok <;> rfl
    | resp ok st ch =>
      cases ok with
      | true => rfl
      | false =>
        cases openRouterFetch with
        | thrown m2 => rfl
        | resp ok2 st2 ch2 => cases ok2 <;> rfl
  · cases deepseekFetch with
    | thrown m =>
      cases openRouterFetch with
      | thrown m2 => simp [generateDeepSeekResponse, fetchFailed]
      | resp ok st ch =>
        cases ok <;> simp [generateDeepSeekResponse, fetchFailed]
    | resp ok st ch =>
      cases ok with
      | true => simp [generateDeepSeekResponse, fetchFailed]
      | false =>
        cases openRouterFetch with
        | thrown m2 => simp [generateDeepSeekResponse, fetchFailed]
        | resp ok2 st2 ch2 =>
          cases ok2 <;> simp [generateDeepSeekResponse, fetchFailed]
  · intro m st c rest hdf hof
    subst hdf
    subst hof
    rfl
  · cases deepseekFetch with
    | thrown m =>
      cases openRouterFetch with
      | thrown m2 => exact fun _ _ => ⟨_, rfl⟩
      | resp ok st ch =>
        cases ok with
        | true => intro _ hof; exact absurd hof (by simp [fetchFailed])
        | false => exact fun _ _ => ⟨_, rfl⟩
    | resp ok st ch =>
      cases ok with
      | true => intro hdf; exact absurd hdf (by simp [fetchFailed])
      | false =>
        cases openRouterFetch with
        | thrown m2 => exact fun _ _ => ⟨_, rfl⟩
        | resp ok2 st2 ch2 =>
          cases ok2 with
          | true => intro _ hof; exact absurd hof (by simp [fetchFailed])
          | false => exact fun _ _ => ⟨_, rfl⟩

/-- Witness for C3: DeepSeek throws a network error, OpenRouter replies
ok, and the request resolves with OpenRouter's first choice after
attempting DeepSeek once and OpenRouter once, in that order. -/
theorem c3_fallback_ordering_witness :
    generateDeepSeekResponse true true (.thrown "network down")
        (.resp true 200 ["hello from the fallback"]) =
      ((.ok ⟨"hello from the fallback", ""⟩ : Except String GenResult),
       [.deepseekTry, .openRouterTry]) :=
  (c3_fallback_ordering (.thrown "network down")
      (.resp true 200 ["hello from the fallback"])).2.2.1
    "network down" 200 "hello from the fallback" [] rfl rfl

/-- C6 counterexample: on a single-image job whose image is a GIF, the
OCR-directed normalizer is not run — even with a normalizer that would
succeed, the submitted batch holds the original GIF rather than the
claimed normalized PNG form. -/
theorem c6_preprocess_counterexample :
    ([⟨"image/gif", "g"⟩] : List ImageRec).map
        (preprocessStep (fun img => .ok ("N" ++ img.data))) =
      [⟨"image/gif", "g"⟩] ∧
    ([⟨"image/gif", "g"⟩] : List ImageRec).map
        (specClaimedPreprocessStep (fun img => .ok ("N" ++ img.data))) =
      [⟨"image/png", "Ng"⟩] ∧
    ([⟨"image/gif", "g"⟩] : List ImageRec) ≠ [⟨"image/png", "Ng"⟩] := by
  refine ⟨rfl, rfl, ?_⟩
  decide

/-- C6 (amended): the OCR-directed normalizer is run over every non-GIF
input image independently (GIF images are submitted with their original
encoding); a preprocessing failure on any single image degrades to that
image's original encoding while the sibling images' normalized forms are
still used, and no per-image failure aborts the job: for a 3-image
non-GIF job where only image 2 fails preprocessing, the submitted batch
is image 1 normalized, image 2 original, image 3 normalized, and the job
returns a non-error result when extraction succeeds. -/
theorem c6_preprocess_degrade (enhance : ImageRec → Except String String)
    (i1 i2 i3 : ImageRec) (d1 d3 e : String)
    (ocrOracle : List ImageRec → Except String OcrResponse)
    (organizeOracle : Except String String) (t : String)
    (h1m : i1.mimeType ≠ "image/gif") (h2m : i2.mimeType ≠ "image/gif")
    (h3m : i3.mimeType ≠ "image/gif")
    (h1 : enhance i1 = .ok d1) (h2 : enhance i2 = .error e)
    (h3 : enhance i3 = .ok d3)
    (hocr : ocrOracle [⟨"image/png", d1⟩, i2, ⟨"image/png", d3⟩] =
      .ok ⟨t, none⟩)
    (ht : t ≠ "")
    (hnf : jsToLower (jsTrim t) ≠ "no text found.") :
    [i1, i2, i3].map (preprocessStep enhance) =
      [⟨"image/png", d1⟩, i2, ⟨"image/png", d3⟩] ∧
    ∃ r, performOcr enhance ocrOracle organizeOracle [i1, i2, i3] = .ok r := by
  have hpre : [i1, i2, i3].map (preprocessStep enhance) =
      [⟨"image/png", d1⟩, i2, ⟨"image/png", d3⟩] := by
    simp only [List.map_cons, List.map_nil, preprocessStep,
      if_pos h1m, if_pos h2m, if_pos h3m, h1, h2, h3]
  refine ⟨hpre, ?_⟩
  have hinner : performOcrTry enhance ocrOracle organizeOracle [i1, i2, i3] =
      if hasAmharicText (jsTrim t) then
        .ok (applyOfflineAmharicCorrections
          (organizeExtractedContent organizeOracle (jsTrim t)))
      else .ok (organizeExtractedContent organizeOracle (jsTrim t)) := by
    unfold performOcrTry
    rw [hpre]
    simp only [hocr, if_neg ht, if_neg hnf]
  unfold performOcr
  rw [hinner]
  by_cases ha : hasAmharicText (jsTrim t) = true
  · rw [if_pos ha]
    exact ⟨_, rfl⟩
  · rw [if_neg ha]
    exact ⟨_, rfl⟩

/-- Witness for C6 (amended): a concrete 3-image job where only the
second image fails preprocessing still submits the first and third
normalized plus the second original, and resolves without error. -/
theorem c6_preprocess_degrade_witness :
    [(⟨"image/png", "one"⟩ : ImageRec), ⟨"image/png", "two"⟩,
        ⟨"image/png", "three"⟩].map
      (preprocessStep (fun img =>
        if img.data = "two" then .error "decode failure"
        else .ok ("N" ++ img.data))) =
      [⟨"image/png", "None"⟩, ⟨"image/png", "two"⟩,
       ⟨"image/png", "Nthree"⟩] ∧
    ∃ r, performOcr
        (fun img => if img.data = "two" then .error "decode failure"
          else .ok ("N" ++ img.data))
        (fun _ => .ok ⟨"extracted text", none⟩)
        (.ok "organized text")
        [⟨"image/png", "one"⟩, ⟨"image/png", "two"⟩,
         ⟨"image/png", "three"⟩] = .ok r :=
  c6_preprocess_degrade
    (fun img => if img.data = "two" then .error "decode failure"
      else .ok ("N" ++ img.data))
    ⟨"image/png", "one"⟩ ⟨"image/png", "two"⟩ ⟨"image/png", "three"⟩
    "None" "Nthree" "decode failure"
    (fun _ => .ok ⟨"extracted text", none⟩) (.ok "organized text")
    "extracted text"
    (by decide) (by decide) (by decide) rfl rfl rfl
    rfl (by decide) (by decide)

/-- C7: OCR empty-output classification — when the extraction provider
returns no output text, a SAFETY stop reason yields a fatal
content-blocked error, any other stated abnormal (non-STOP, non-empty)
reason yields a fatal incomplete-generation error, and a normal STOP (or
absent reason) with empty text is not an error: it resolves to the fixed
no-text-found result string. -/
theorem c7_ocr_empty_output_classification
    (enhance : ImageRec → Except String String)
    (ocrOracle : List ImageRec → Except String OcrResponse)
    (organizeOracle : Except String String)
    (images : List ImageRec) (resp : OcrResponse)
    (hresp : ocrOracle (images.map (preprocessStep enhance)) = .ok resp)
    (hempty : resp.text = "") :
    (resp.finishReason = some "SAFETY" →
      performOcr enhance ocrOracle organizeOracle images =
        .error (handleApiErrorMsg ocrSafetyMsg "OCR Operation")) ∧
    (∀ r, resp.finishReason = some r → r ≠ "SAFETY" → r ≠ "STOP" → r ≠ "" →
      performOcr enhance ocrOracle organizeOracle images =
        .error (handleApiErrorMsg (ocrIncompleteMsg r) "OCR Operation")) ∧
    (resp.finishReason = some "STOP" →
      performOcr enhance ocrOracle organizeOracle images = .ok ocrNoTextMsg) ∧
    (resp.finishReason = none →
      performOcr enhance ocrOracle organizeOracle images = .ok ocrNoTextMsg) := by
  have htry : performOcrTry enhance ocrOracle organizeOracle images =
      (match resp.finishReason with
       | some r =>
         if r = "SAFETY" then .error ocrSafetyMsg
         else if r ≠ "" ∧ r ≠ "STOP" then .error (ocrIncompleteMsg r)
         else .ok ocrNoTextMsg
       | none => .ok ocrNoTextMsg) := by
    unfold performOcrTry
    simp only [hresp]
    rw [if_pos hempty]
  refine ⟨?_, ?_, ?_, ?_⟩
  · intro hr
    unfold performOcr
    rw [htry, hr]
    rfl
  · intro r hr hrs hrstop hrne
    unfold performOcr
    rw [htry, hr]
    simp only [if_neg hrs, if_pos (And.intro hrne hrstop)]
  · intro hr
    unfold performOcr
    rw [htry, hr]
    rfl
  · intro hr
    unfold performOcr
    rw [htry, hr]

/-- Witness for C7: a concrete extraction reply with empty text and a
SAFETY stop reason makes the job fail with the wrapped content-blocked
message. -/
theorem c7_ocr_empty_output_classification_witness :
    performOcr (fun img => .ok img.data)
        (fun _ => .ok ⟨"", some "SAFETY"⟩) (.ok "organized")
        [⟨"image/png", "AAAA"⟩] =
      .error (handleApiErrorMsg ocrSafetyMsg "OCR Operation") :=
  (c7_ocr_empty_output_classification (fun img => .ok img.data)
      (fun _ => .ok ⟨"", some "SAFETY"⟩) (.ok "organized")
      [⟨"image/png", "AAAA"⟩] ⟨"", some "SAFETY"⟩ rfl rfl).1 rfl

/-- C8: Script-correction gating — the Script-Correct stage is the pure
local function `applyOfflineAmharicCorrections` (no oracle, total), and
for every OCR job whose organized text contains no character of the
Ethiopic block, the correction is the identity on that text and the
final OCR result equals the Organize stage's output byte-for-byte. -/
theorem c8_script_correction_gating
    (enhance : ImageRec → Except String String)
    (ocrOracle : List ImageRec → Except String OcrResponse)
    (organizeOracle : Except String String)
    (images : List ImageRec) (resp : OcrResponse)
    (hresp : ocrOracle (images.map (preprocessStep enhance)) = .ok resp)
    (hne : resp.text ≠ "")
    (hnf : jsToLower (jsTrim resp.text) ≠ "no text found.")
    (horg : ∀ c ∈ (organizeExtractedContent organizeOracle
        (jsTrim resp.text)).toList, isEthiopic c = false) :
    applyOfflineAmharicCorrections
        (organizeExtractedContent organizeOracle (jsTrim resp.text)) =
      organizeExtractedContent organizeOracle (jsTrim resp.text) ∧
    performOcr enhance ocrOracle organizeOracle images =
      .ok (organizeExtractedContent organizeOracle (jsTrim resp.text)) := by
  have hid := applyOfflineAmharicCorrections_of_no_ethiopic horg
  refine ⟨hid, ?_⟩
  have htry : performOcrTry enhance ocrOracle organizeOracle images =
      if hasAmharicText (jsTrim resp.text) then
        .ok (applyOfflineAmharicCorrections
          (organizeExtractedContent organizeOracle (jsTrim resp.text)))
      else .ok (organizeExtractedContent organizeOracle (jsTrim resp.text)) := by
    unfold performOcrTry
    simp only [hresp, if_neg hne, if_neg hnf]
  unfold performOcr
  rw [htry]
  by_cases ha : hasAmharicText (jsTrim resp.text) = true
  · rw [if_pos ha, hid]
  · rw [if_neg ha]

/-- Witness for C8: an extraction whose organized text is plain ASCII
leaves the final OCR result equal to the organize-stage output. -/
theorem c8_script_correction_gating_witness :
    applyOfflineAmharicCorrections "organized plain" = "organized plain" ∧
    performOcr (fun img => .ok img.data)
        (fun _ => .ok ⟨"raw text", none⟩) (.ok "organized plain")
        [⟨"image/png", "AAAA"⟩] =
      .ok "organized plain" :=
  c8_script_correction_gating (fun img => .ok img.data)
    (fun _ => .ok ⟨"raw text", none⟩) (.ok "organized plain")
    [⟨"image/png", "AAAA"⟩] ⟨"raw text", none⟩ rfl (by decide) (by decide)
    (by decide)

theorem round_le_of_le {x y : ℚ} (h : x ≤ y) : round x ≤ round y := by
  rw [round_eq, round_eq]
  exact Int.floor_le_floor (by linarith)

theorem round_le_bound {x : ℚ} {n : ℕ} (h : x ≤ (n : ℚ)) :
    round x ≤ (n : ℤ) := by
  have h2 := round_le_of_le h
  rwa [show round ((n : ℚ)) = (n : ℤ) from round_natCast n] at h2

theorem resizeDims_le (w h : ℕ) :
    (resizeDims w h).1 ≤ 1024 ∧ (resizeDims w h).2 ≤ 1024 := by
  unfold resizeDims
  by_cases hbig : w > 1024 ∨ h > 1024
  · rw [if_pos hbig]
    by_cases hwh : w > h
    · rw [if_pos hwh]
      refine ⟨le_refl _, ?_⟩
      have hwpos : 0 < w := by
        rcases hbig with hb | hb
        · omega
        · omega
      have hw0 : (0 : ℚ) < (w : ℚ) := by exact_mod_cast hwpos
      have hle : ((h : ℚ) * 1024) / (w : ℚ) ≤ (1024 : ℚ) := by
        rw [div_le_iff₀ hw0]
        have : (h : ℚ) ≤ (w : ℚ) := by exact_mod_cast Nat.le_of_lt hwh
        nlinarith
      exact_mod_cast round_le_bound (by exact_mod_cast hle)
    · rw [if_neg hwh]
      refine ⟨?_, le_refl _⟩
      have hhpos : 0 < h := by
        rcases hbig with hb | hb
        · omega
        · omega
      have hh0 : (0 : ℚ) < (h : ℚ) := by exact_mod_cast hhpos
      have hle : ((w : ℚ) * 1024) / (h : ℚ) ≤ (1024 : ℚ) := by
        rw [div_le_iff₀ hh0]
        have : (w : ℚ) ≤ (h : ℚ) := by exact_mod_cast Nat.le_of_not_lt hwh
        nlinarith
      exact_mod_cast round_le_bound (by exact_mod_cast hle)
  · rw [if_neg hbig]
    rw [not_or] at hbig
    constructor
    · show (w : ℤ) ≤ 1024
      exact_mod_cast Nat.le_of_not_lt hbig.1
    · show (h : ℤ) ≤ 1024
      exact_mod_cast Nat.le_of_not_lt hbig.2

theorem enhanceImageForOcrDims_le (w h : ℕ) (hw : 0 < w) (hh : 0 < h) :
    (enhanceImageForOcrDims w h).1 ≤ 2048 ∧
    (enhanceImageForOcrDims w h).2 ≤ 2048 := by
  have hw0 : (0 : ℚ) < (w : ℚ) := by exact_mod_cast hw
  have hh0 : (0 : ℚ) < (h : ℚ) := by exact_mod_cast hh
  have hsw : ocrScale w h ≤ 2048 / (w : ℚ) :=
    le_trans (min_le_left _ _) (min_le_left _ _)
  have hsh : ocrScale w h ≤ 2048 / (h : ℚ) :=
    le_trans (min_le_left _ _) (min_le_right _ _)
  constructor
  · have hb : (w : ℚ) * ocrScale w h ≤ (2048 : ℚ) := by
      have := mul_le_mul_of_nonneg_left hsw (le_of_lt hw0)
      rwa [mul_div_cancel₀ _ (ne_of_gt hw0)] at this
    exact_mod_cast round_le_bound (by exact_mod_cast hb)
  · have hb : (h : ℚ) * ocrScale w h ≤ (2048 : ℚ) := by
      have := mul_le_mul_of_nonneg_left hsh (le_of_lt hh0)
      rwa [mul_div_cancel₀ _ (ne_of_gt hh0)] at this
    exact_mod_cast round_le_bound (by exact_mod_cast hb)

theorem fileToBase64_bounds (isTiff : Bool) (fileType : String) (w h : ℕ) :
    (fileToBase64 true isTiff fileType w h).mimeType = "image/jpeg" ∨
      (fileToBase64 true isTiff fileType w h).original = true := by
  unfold fileToBase64 processAndEncode
  by_cases ht : isTiff = true
  · rw [if_pos ht]
    split
    · exact Or.inl rfl
    · exact Or.inl rfl
  · rw [if_neg ht]
    split
    · exact Or.inr rfl
    · split
      · exact Or.inl rfl
      · exact Or.inl rfl

theorem processAndEncode_bounds (w h : ℕ) :
    (processAndEncode true w h).mimeType = "image/jpeg" ∧
    (processAndEncode true w h).width ≤ 1024 ∧
    (processAndEncode true w h).height ≤ 1024 ∧
    (processAndEncode true w h).original = false := by
  unfold processAndEncode
  by_cases hbig : w > 1024 ∨ h > 1024
  · rw [if_pos hbig, if_pos rfl]
    exact ⟨rfl, (resizeDims_le w h).1, (resizeDims_le w h).2, rfl⟩
  · rw [if_neg hbig]
    rw [not_or] at hbig
    refine ⟨rfl, ?_, ?_, rfl⟩
    · show (w : ℤ) ≤ 1024
      exact_mod_cast Nat.le_of_not_lt hbig.1
    · show (h : ℤ) ≤ 1024
      exact_mod_cast Nat.le_of_not_lt hbig.2

/-- C9: Image Normalizer size contract — general-mode output always has
both dimensions at most 1024 px and is encoded as JPEG; the only
pass-through case is a non-TIFF input already encoded as JPEG with both
dimensions at most 1024 px, returned unmodified; the OCR-directed scale
factor is `min(2048 / width, 2048 / height, 2)`, so it is capped at 2×
and both output dimensions are at most 2048 px. -/
theorem c9_normalizer_size_contract (isTiff : Bool) (fileType : String)
    (w h : ℕ) (hw : 0 < w) (hh : 0 < h) :
    (fileToBase64 true isTiff fileType w h).mimeType = "image/jpeg" ∧
    (fileToBase64 true isTiff fileType w h).width ≤ 1024 ∧
    (fileToBase64 true isTiff fileType w h).height ≤ 1024 ∧
    ((fileToBase64 true isTiff fileType w h).original = true →
      isTiff = false ∧ fileType = "image/jpeg" ∧ w ≤ 1024 ∧ h ≤ 1024 ∧
      fileToBase64 true isTiff fileType w h =
        ⟨fileType, (w : ℤ), (h : ℤ), true⟩) ∧
    ocrScale w h ≤ 2 ∧
    (enhanceImageForOcrDims w h).1 ≤ 2048 ∧
    (enhanceImageForOcrDims w h).2 ≤ 2048 := by
  have hocr := enhanceImageForOcrDims_le w h hw hh
  have hs2 : ocrScale w h ≤ 2 := min_le_right _ _
  have hgen : (fileToBase64 true isTiff fileType w h).mimeType = "image/jpeg" ∧
      (fileToBase64 true isTiff fileType w h).width ≤ 1024 ∧
      (fileToBase64 true isTiff fileType w h).height ≤ 1024 ∧
      ((fileToBase64 true isTiff fileType w h).original = true →
        isTiff = false ∧ fileType = "image/jpeg" ∧ w ≤ 1024 ∧ h ≤ 1024 ∧
        fileToBase64 true isTiff fileType w h =
          ⟨fileType, (w : ℤ), (h : ℤ), true⟩) := by
    unfold fileToBase64
    by_cases ht : isTiff = true
    · rw [if_pos ht]
      have hp := processAndEncode_bounds w h
      refine ⟨hp.1, hp.2.1, hp.2.2.1, ?_⟩
      intro horig
      rw [hp.2.2.2] at horig
      exact absurd horig (by simp)
    · rw [if_neg ht]
      by_cases hguard : w ≤ 1024 ∧ h ≤ 1024 ∧ fileType = "image/jpeg"
      · rw [if_pos hguard]
        refine ⟨hguard.2.2, ?_, ?_, ?_⟩
        · show (w : ℤ) ≤ 1024
          exact_mod_cast hguard.1
        · show (h : ℤ) ≤ 1024
          exact_mod_cast hguard.2.1
        · intro _
          exact ⟨Bool.not_eq_true isTiff ▸ (by simpa using ht),
            hguard.2.2, hguard.1, hguard.2.1, rfl⟩
      · rw [if_neg hguard]
        have hp := processAndEncode_bounds w h
        refine ⟨hp.1, hp.2.1, hp.2.2.1, ?_⟩
        intro horig
        rw [hp.2.2.2] at horig
        exact absurd horig (by simp)
  exact ⟨hgen.1, hgen.2.1, hgen.2.2.1, hgen.2.2.2, hs2, hocr.1, hocr.2⟩

/-- Witness for C9: a concrete 3000 × 2000 PNG input. -/
theorem c9_normalizer_size_contract_witness :
    (fileToBase64 true false "image/png" 3000 2000).mimeType =
      "image/jpeg" ∧
    (fileToBase64 true false "image/png" 3000 2000).width ≤ 1024 ∧
    (fileToBase64 true false "image/png" 3000 2000).height ≤ 1024 ∧
    ((fileToBase64 true false "image/png" 3000 2000).original = true →
      false = false ∧ "image/png" = "image/jpeg" ∧ 3000 ≤ 1024 ∧
      2000 ≤ 1024 ∧
      fileToBase64 true false "image/png" 3000 2000 =
        ⟨"image/png", (3000 : ℤ), (2000 : ℤ), true⟩) ∧
    ocrScale 3000 2000 ≤ 2 ∧
    (enhanceImageForOcrDims 3000 2000).1 ≤ 2048 ∧
    (enhanceImageForOcrDims 3000 2000).2 ≤ 2048 :=
  c9_normalizer_size_contract false "image/png" 3000 2000
    (by decide) (by decide)
